import Mathlib

/-!
Verification of the particle simulation in src/webglanim.ts
(class WebGLLogoParticles).

Numbers are modelled as exact rationals (the spec's idealized arithmetic);
JavaScript decimal literals such as 0.06 become the rationals 6/100 etc.
Math.sqrt is modelled as an abstract function parameter sq : ℚ → ℚ,
constrained only where a claim needs it (nonnegativity, sq 0 = 0).
Math.random draws are modelled as explicit per-pixel streams of rationals.
-/

namespace Nuxtanime

/-- One particle, as the Particle interface in webglanim.ts:
position (x, y, z), velocity (vx, vy, vz), anchor (originX, originY,
originZ), RGBA color and point size. -/
structure Particle where
  x : ℚ
  y : ℚ
  z : ℚ
  vx : ℚ
  vy : ℚ
  vz : ℚ
  originX : ℚ
  originY : ℚ
  originZ : ℚ
  color : ℚ × ℚ × ℚ × ℚ
  size : ℚ
deriving DecidableEq, Repr

/-- attractionForce = 0.06 (animate, line 267). -/
def attractionForce : ℚ := 6 / 100

/-- mouseRepelForce = 4 (animate, line 268). -/
def mouseRepelForce : ℚ := 4

/-- mouseRadius = 120 (animate, line 269). -/
def mouseRadius : ℚ := 120

/-- friction = 0.92 (animate, line 270). -/
def frictionConst : ℚ := 92 / 100

/-- mouseRadiusSquared = mouseRadius * mouseRadius (animate, line 271). -/
def mouseRadiusSquared : ℚ := mouseRadius * mouseRadius

/-- The per-particle physics update of animate (lines 274-310), translated
literally: attraction to origin, the mouse-interaction branch, friction on
all three velocity components, then position integration.  sq stands for
Math.sqrt; isMouseOver, mouseX, mouseY are the instance fields read by the
step. -/
def stepParticle (sq : ℚ → ℚ) (isMouseOver : Bool) (mouseX mouseY : ℚ)
    (p : Particle) : Particle :=
  let dx := p.originX - p.x
  let dy := p.originY - p.y
  let dz := p.originZ - p.z
  let vx1 := p.vx + dx * attractionForce
  let vy1 := p.vy + dy * attractionForce
  let vz1 := p.vz + dz * attractionForce * (1 / 2)
  let v2 :=
    if isMouseOver then
      let mouseDx := p.x - mouseX
      let mouseDy := p.y - mouseY
      let mouseDistSquared := mouseDx * mouseDx + mouseDy * mouseDy
      if mouseDistSquared < mouseRadiusSquared then
        let mouseDist := sq mouseDistSquared
        let force := (mouseRadius - mouseDist) / mouseRadius
        (vx1 + mouseDx / (mouseDist + 1 / 10) * force * mouseRepelForce,
         vy1 + mouseDy / (mouseDist + 1 / 10) * force * mouseRepelForce,
         vz1 + force * mouseRepelForce * (1 / 2))
      else (vx1, vy1, vz1)
    else (vx1, vy1, vz1)
  let vx3 := v2.1 * frictionConst
  let vy3 := v2.2.1 * frictionConst
  let vz3 := v2.2.2 * frictionConst
  { p with
    vx := vx3, vy := vy3, vz := vz3,
    x := p.x + vx3, y := p.y + vy3, z := p.z + vz3 }

/-- The velocity increment of the mouse-interaction branch (animate,
lines 286-298), in isolation: zero when the squared distance is not below
mouseRadiusSquared. -/
def mouseRepelDelta (sq : ℚ → ℚ) (mouseX mouseY : ℚ) (p : Particle) :
    ℚ × ℚ × ℚ :=
  let mouseDx := p.x - mouseX
  let mouseDy := p.y - mouseY
  let mouseDistSquared := mouseDx * mouseDx + mouseDy * mouseDy
  if mouseDistSquared < mouseRadiusSquared then
    let mouseDist := sq mouseDistSquared
    let force := (mouseRadius - mouseDist) / mouseRadius
    (mouseDx / (mouseDist + 1 / 10) * force * mouseRepelForce,
     mouseDy / (mouseDist + 1 / 10) * force * mouseRepelForce,
     force * mouseRepelForce * (1 / 2))
  else (0, 0, 0)

/-- Spec stage 1 (spec 4.2): velocity += (origin - position) * attraction,
z-component further multiplied by 0.5. -/
def springStage (p : Particle) : Particle :=
  { p with
    vx := p.vx + (p.originX - p.x) * attractionForce,
    vy := p.vy + (p.originY - p.y) * attractionForce,
    vz := p.vz + (p.originZ - p.z) * attractionForce * (1 / 2) }

/-- Spec stage 2 (spec 4.2): pointer repulsion, only while the pointer is
over the surface and the particle is strictly inside the radius. -/
def repelStage (sq : ℚ → ℚ) (isMouseOver : Bool) (mouseX mouseY : ℚ)
    (p : Particle) : Particle :=
  if isMouseOver then
    let dX := p.x - mouseX
    let dY := p.y - mouseY
    let distSq := dX * dX + dY * dY
    if distSq < mouseRadiusSquared then
      let dist := sq distSq
      let force := (mouseRadius - dist) / mouseRadius
      { p with
        vx := p.vx + dX / (dist + 1 / 10) * force * mouseRepelForce,
        vy := p.vy + dY / (dist + 1 / 10) * force * mouseRepelForce,
        vz := p.vz + force * mouseRepelForce * (1 / 2) }
    else p
  else p

/-- Spec stage 3 (spec 4.2): velocity *= friction on all three axes. -/
def frictionStage (p : Particle) : Particle :=
  { p with
    vx := p.vx * frictionConst,
    vy := p.vy * frictionConst,
    vz := p.vz * frictionConst }

/-- Spec stage 4 (spec 4.2): position += velocity, unit timestep. -/
def integrateStage (p : Particle) : Particle :=
  { p with x := p.x + p.vx, y := p.y + p.vy, z := p.z + p.vz }

/-- The per-frame input read by the physics step: the isMouseOver flag and
the mouseX, mouseY fields maintained by the event handlers. -/
structure Frame where
  isMouseOver : Bool
  mouseX : ℚ
  mouseY : ℚ
deriving DecidableEq, Repr

/-- One iteration of the update loop of animate (lines 274-310) over the
whole particle array. -/
def stepAll (sq : ℚ → ℚ) (f : Frame) (ps : List Particle) : List Particle :=
  ps.map (stepParticle sq f.isMouseOver f.mouseX f.mouseY)

/-- Any number of animation frames in sequence, each with its own pointer
state. -/
def runFrames (sq : ℚ → ℚ) (fs : List Frame) (ps : List Particle) :
    List Particle :=
  fs.foldl (fun acc f => stepAll sq f acc) ps

/-- A particle at rest: position equals origin and velocity is zero. -/
def atRest (p : Particle) : Prop :=
  p.x = p.originX ∧ p.y = p.originY ∧ p.z = p.originZ ∧
  p.vx = 0 ∧ p.vy = 0 ∧ p.vz = 0

/-- The fields of a particle that the simulation never writes: origin,
color and size. -/
def staticFields (p : Particle) : ℚ × ℚ × ℚ × (ℚ × ℚ × ℚ × ℚ) × ℚ :=
  (p.originX, p.originY, p.originZ, p.color, p.size)

/-- The body of the pixel loop of createParticles (lines 205-233) for one
grid coordinate (x, y) of the scaled bitmap: reads the RGBA bytes at
pixelIndex = (y * width + x) * 4, emits a particle when alpha > 128.
data is the flattened byte array (values 0..255); rz and rs are the
Math.random() draws used for the depth jitter and the size. -/
def pixelParticle (width : ℕ) (data : ℕ → ℕ) (rz rs : ℕ → ℕ → ℚ)
    (ox oy : ℚ) (y x : ℕ) : Option Particle :=
  let pixelIndex := (y * width + x) * 4
  let alpha := data (pixelIndex + 3)
  if 128 < alpha then
    let red : ℚ := (data pixelIndex : ℚ) / 255
    let green : ℚ := (data (pixelIndex + 1) : ℚ) / 255
    let blue : ℚ := (data (pixelIndex + 2) : ℚ) / 255
    let z : ℚ := (rz x y * 2 - 1) * 20
    some
      { x := ox + x, y := oy + y, z := z,
        vx := 0, vy := 0, vz := 0,
        originX := ox + x, originY := oy + y, originZ := 0,
        color := (red, green, blue, 1),
        size := rs x y * (3 / 2) + 9 / 10 }
  else none

/-- The double pixel loop of createParticles (lines 205-233) with
particleGap = 1: y runs over the rows of the scaled bitmap (outer), x over
the columns (inner), appending one particle per pixel whose alpha byte
exceeds 128. -/
def createParticlesGrid (width height : ℕ) (data : ℕ → ℕ)
    (rz rs : ℕ → ℕ → ℚ) (ox oy : ℚ) : List Particle :=
  (List.range height).flatMap fun y =>
    (List.range width).filterMap fun x =>
      pixelParticle width data rz rs ox oy y x

/-- canvas.width, fixed to 350 in initWebGL (line 82). -/
def canvasWidth : ℚ := 350

/-- canvas.height, fixed to 150 in initWebGL (line 83). -/
def canvasHeight : ℚ := 150

/-- The scale of createParticles (lines 183-186):
min(canvasWidth * 0.9 / imageWidth, canvasHeight * 0.9 / imageHeight). -/
def scaleFor (cw ch w h : ℚ) : ℚ :=
  min (cw * (9 / 10) / w) (ch * (9 / 10) / h)

/-- logoWidth = imageWidth * scale (line 188). -/
def logoWidth (cw ch w h : ℚ) : ℚ := w * scaleFor cw ch w h

/-- logoHeight = imageHeight * scale (line 189). -/
def logoHeight (cw ch w h : ℚ) : ℚ := h * scaleFor cw ch w h

/-- offsetX = (canvasWidth - logoWidth) / 2 (line 199). -/
def offsetX (cw ch w h : ℚ) : ℚ := (cw - logoWidth cw ch w h) / 2

/-- offsetY = (canvasHeight - logoHeight) / 2 (line 200). -/
def offsetY (cw ch w h : ℚ) : ℚ := (ch - logoHeight cw ch w h) / 2

/-- The scale factor as the spec words it: min of 0.9 * canvas dimension
over image dimension, per axis. -/
def scaleSpec (cw ch w h : ℚ) : ℚ :=
  min (9 / 10 * cw / w) (9 / 10 * ch / h)

/-- The environment the constructor runs against: whether
canvas.getContext("webgl2") succeeds, whether each shader compiles,
whether the program links, and the backend info logs. -/
structure GLEnv where
  webgl2Supported : Bool
  vertexCompileOk : Bool
  fragmentCompileOk : Bool
  linkOk : Bool
  vertexShaderLog : String
  fragmentShaderLog : String
  programLog : String
deriving DecidableEq, Repr

/-- The ways construction can abort: the thrown Error message, together
with the backend compiler log that createShader / createProgram emit via
console.error alongside the throw. -/
inductive InitFailure where
  | contextUnavailable (message : String)
  | shaderCompile (message : String) (compilerLog : String)
  | programLink (message : String) (compilerLog : String)
deriving DecidableEq, Repr

/-- The message of the Error thrown by the constructor (line 67). -/
def webgl2ErrorMessage : String := "WebGL2 not supported"

/-- The message of the Error thrown by createShader (line 123). -/
def shaderErrorMessage : String := "Shader compilation failed"

/-- The message of the Error thrown by createProgram (line 142). -/
def programErrorMessage : String := "Program linking failed"

/-- A placeholder backend info log, for concrete instantiations. -/
def dummyLog : String := ""

/-- createShader (lines 114-126): succeeds when COMPILE_STATUS is set,
otherwise logs the shader info log via console.error and throws. -/
def createShader (compileOk : Bool) (infoLog : String) :
    Except InitFailure Unit :=
  if compileOk then Except.ok ()
  else Except.error (InitFailure.shaderCompile shaderErrorMessage infoLog)

/-- createProgram (lines 129-145): succeeds when LINK_STATUS is set,
otherwise logs the program info log via console.error and throws. -/
def createProgram (linkOk : Bool) (infoLog : String) :
    Except InitFailure Unit :=
  if linkOk then Except.ok ()
  else Except.error (InitFailure.programLink programErrorMessage infoLog)

/-- The fallible part of construction (constructor lines 64-76 plus
initWebGL lines 87-95): throw "WebGL2 not supported" when the context is
unavailable, then compile the vertex shader, the fragment shader, and
link the program, propagating the first failure. -/
def constructParticles (env : GLEnv) : Except InitFailure Unit :=
  if env.webgl2Supported then
    match createShader env.vertexCompileOk env.vertexShaderLog with
    | Except.error e => Except.error e
    | Except.ok _ =>
      match createShader env.fragmentCompileOk env.fragmentShaderLog with
      | Except.error e => Except.error e
      | Except.ok _ => createProgram env.linkOk env.programLog
  else Except.error (InitFailure.contextUnavailable webgl2ErrorMessage)

/-- The lifecycle state of one WebGLLogoParticles instance: whether the
image load event has fired, whether the onload handler installed by
initWebGL (line 107) is still attached, whether a requestAnimationFrame
callback is pending, whether the GL program / buffer / pointer listeners
are alive, whether destroy has run, and how many physics-plus-render
steps (invocations of animate) have occurred. -/
structure SysState where
  loaded : Bool
  onloadAttached : Bool
  pendingFrame : Bool
  programAlive : Bool
  bufferAlive : Bool
  listenersAttached : Bool
  destroyed : Bool
  steps : ℕ
deriving DecidableEq, Repr

/-- The state right after the constructor returns: onload handler
attached, no frame scheduled yet (animationId = 0), resources and
listeners alive, no step performed. -/
def initSysState : SysState :=
  { loaded := false, onloadAttached := true, pendingFrame := false,
    programAlive := true, bufferAlive := true, listenersAttached := true,
    destroyed := false, steps := 0 }

/-- Host events that drive the instance. -/
inductive SysEvent where
  | imageLoad
  | frame
  | destroyCall
deriving DecidableEq, Repr

/-- How the code reacts to each host event.
imageLoad: the onload closure (line 107) runs createParticles and then
animate, which performs one step and schedules the next frame (line 343);
destroy never detaches this closure.
frame: a pending requestAnimationFrame callback runs animate, which
performs one step and reschedules itself.
destroyCall (lines 384-395): cancelAnimationFrame, deleteProgram,
deleteBuffer, remove the two pointer listeners; the onload handler is
left attached. -/
def handleEvent (s : SysState) : SysEvent → SysState
  | SysEvent.imageLoad =>
    if s.onloadAttached && !s.loaded then
      { s with loaded := true, steps := s.steps + 1, pendingFrame := true }
    else s
  | SysEvent.frame =>
    if s.pendingFrame then
      { s with steps := s.steps + 1, pendingFrame := true }
    else s
  | SysEvent.destroyCall =>
    { s with
      pendingFrame := false, programAlive := false,
      bufferAlive := false, listenersAttached := false, destroyed := true }

/-- Run a sequence of host events from the freshly constructed state. -/
def runEvents (evs : List SysEvent) : SysState :=
  evs.foldl handleEvent initSysState

/-- The pixel data that createParticles samples, when the 2D context is
available: the scaled bitmap's integer grid dimensions and its flattened
RGBA bytes. -/
structure PixelSource where
  width : ℕ
  height : ℕ
  data : ℕ → ℕ

/-- The instance fields written by createParticles: this.particles and
this.particleCount. -/
structure BuilderState where
  particles : List Particle
  particleCount : ℕ
deriving Repr

/-- The field values at construction (lines 18 and 26): empty particle
array, particleCount = 0. -/
def initBuilderState : BuilderState :=
  { particles := [], particleCount := 0 }

/-- createParticles (lines 174-237) at the state level: this.particles is
reset to [], then, if getContext("2d") returned null (line 180), the
method returns early — leaving particleCount untouched; otherwise the
pixel loop fills the array and particleCount := particles.length
(line 235). -/
def createParticlesRun (ctx : Option PixelSource) (rz rs : ℕ → ℕ → ℚ)
    (ox oy : ℚ) (s : BuilderState) : BuilderState :=
  let s1 := { s with particles := [] }
  match ctx with
  | none => s1
  | some src =>
    let ps := createParticlesGrid src.width src.height src.data rz rs ox oy
    { particles := ps, particleCount := ps.length }

/-- A bitmap whose every byte is 128: every pixel has alpha exactly 128,
i.e. strictly above 50% of the maximum 255. -/
def alpha128Data : ℕ → ℕ := fun _ => 128

/-- A fully opaque white bitmap: every byte 255. -/
def opaqueData : ℕ → ℕ := fun _ => 255

/-- A random stream that always draws 0 (the low end of [0, 1)). -/
def zeroDraw : ℕ → ℕ → ℚ := fun _ _ => 0

/-- A second all-zero random stream, for the size draw. -/
def zeroSizeDraw : ℕ → ℕ → ℚ := fun _ _ => 0

/-- A concrete particle sitting at its origin with zero velocity. -/
def restParticle : Particle :=
  { x := 5, y := 6, z := 0, vx := 0, vy := 0, vz := 0,
    originX := 5, originY := 6, originZ := 0,
    color := (1, 0, 0, 1), size := 1 }

/-- A concrete particle whose 2D distance to the pointer position (0, 0)
is exactly mouseRadius = 120. -/
def boundaryParticle : Particle :=
  { x := 120, y := 0, z := 0, vx := 0, vy := 0, vz := 0,
    originX := 120, originY := 0, originZ := 0,
    color := (1, 1, 1, 1), size := 1 }

/-- The single particle created from the opaque 1-by-1 bitmap with zero
random draws: color 255/255 = 1 per channel, z = (0 * 2 - 1) * 20 = -20,
size = 0 * 1.5 + 0.9. -/
def opaqueParticle : Particle :=
  { x := 0, y := 0, z := -20, vx := 0, vy := 0, vz := 0,
    originX := 0, originY := 0, originZ := 0,
    color := (1, 1, 1, 1), size := 9 / 10 }

/-- A frame with the pointer parked off the surface, as the mouseout
handler leaves it (lines 157-161). -/
def mouseOffFrame : Frame :=
  { isMouseOver := false, mouseX := -1000, mouseY := -1000 }

/-- The monolithic step is the composition of the four spec stages in
order. -/
theorem stepParticle_eq_stages (sq : ℚ → ℚ) (isMouseOver : Bool)
    (mouseX mouseY : ℚ) (p : Particle) :
    stepParticle sq isMouseOver mouseX mouseY p =
      integrateStage (frictionStage
        (repelStage sq isMouseOver mouseX mouseY (springStage p))) := by
  cases isMouseOver with
  | false => rfl
  | true =>
    by_cases h : (p.x - mouseX) * (p.x - mouseX) +
        (p.y - mouseY) * (p.y - mouseY) < mouseRadiusSquared
    · simp [stepParticle, repelStage, springStage, frictionStage,
        integrateStage, h]
    · simp [stepParticle, repelStage, springStage, frictionStage,
        integrateStage, h]

/-- C1: one physics step performs, in order: spring attraction to origin
(z damped by an extra 0.5), optional pointer repulsion, friction 0.92 on
all three axes with no other damping, then position += velocity with a
unit timestep, with constants attraction = 0.06, mouseRepel = 4,
mouseRadius = 120, friction = 0.92. -/
theorem step_order_and_constants :
    attractionForce = 6 / 100 ∧ mouseRepelForce = 4 ∧ mouseRadius = 120 ∧
    frictionConst = 92 / 100 ∧
    ∀ (sq : ℚ → ℚ) (isMouseOver : Bool) (mouseX mouseY : ℚ) (p : Particle),
      stepParticle sq isMouseOver mouseX mouseY p =
        integrateStage (frictionStage
          (repelStage sq isMouseOver mouseX mouseY (springStage p))) :=
  ⟨rfl, rfl, rfl, rfl, stepParticle_eq_stages⟩

theorem stepParticle_staticFields (sq : ℚ → ℚ) (isMouseOver : Bool)
    (mouseX mouseY : ℚ) (p : Particle) :
    staticFields (stepParticle sq isMouseOver mouseX mouseY p) =
      staticFields p := rfl

theorem stepParticle_rest (sq : ℚ → ℚ) (mouseX mouseY : ℚ) (p : Particle)
    (h : atRest p) : stepParticle sq false mouseX mouseY p = p := by
  obtain ⟨hx, hy, hz, hvx, hvy, hvz⟩ := h
  cases p with
  | mk x y z vx vy vz oX oY oZ c s =>
    dsimp only at hx hy hz hvx hvy hvz
    subst hx
    subst hy
    subst hz
    subst hvx
    subst hvy
    subst hvz
    simp [stepParticle]

theorem stepAll_rest (sq : ℚ → ℚ) (f : Frame) (ps : List Particle)
    (hf : f.isMouseOver = false) (h : ∀ p ∈ ps, atRest p) :
    stepAll sq f ps = ps := by
  unfold stepAll
  rw [hf]
  exact (List.map_congr_left fun p hp =>
    stepParticle_rest sq f.mouseX f.mouseY p (h p hp)).trans (List.map_id ps)

/-- C3: a particle set at rest (position = origin, velocity zero) with the
pointer off the surface is a fixed point of any number of physics
steps. -/
theorem rest_state_fixed_point (sq : ℚ → ℚ) (fs : List Frame)
    (ps : List Particle) (hfs : ∀ f ∈ fs, f.isMouseOver = false)
    (hps : ∀ p ∈ ps, atRest p) : runFrames sq fs ps = ps := by
  induction fs with
  | nil => rfl
  | cons f fs ih =>
    show runFrames sq fs (stepAll sq f ps) = ps
    rw [stepAll_rest sq f ps (hfs f (List.mem_cons_self f fs)) hps]
    exact ih fun g hg => hfs g (List.mem_cons_of_mem f hg)

/-- Witness for C3 at a concrete rest particle over two mouse-off
frames. -/
theorem rest_state_fixed_point_witness :
    runFrames (fun q => q) [mouseOffFrame, mouseOffFrame] [restParticle] =
      [restParticle] :=
  rest_state_fixed_point (fun q => q) [mouseOffFrame, mouseOffFrame]
    [restParticle] (by decide)
    (by
      intro p hp
      rw [List.mem_singleton] at hp
      subst hp
      exact ⟨rfl, rfl, rfl, rfl, rfl, rfl⟩)

/-- C4: at 2D distance exactly mouseRadius the repulsion branch
contributes nothing (the step equals the mouse-off step); at distance 0
the contribution is the finite (0, 0, 2); and the guarded denominator
sqrt(distSq) + 0.1 is strictly positive, so the computation never divides
by zero. -/
theorem pointer_repulsion_boundary (sq : ℚ → ℚ)
    (hnn : ∀ q : ℚ, 0 ≤ q → 0 ≤ sq q) (hz : sq 0 = 0)
    (mx my : ℚ) (p : Particle) :
    ((p.x - mx) * (p.x - mx) + (p.y - my) * (p.y - my) =
        mouseRadius * mouseRadius →
      stepParticle sq true mx my p = stepParticle sq false mx my p ∧
      mouseRepelDelta sq mx my p = (0, 0, 0)) ∧
    (p.x = mx ∧ p.y = my → mouseRepelDelta sq mx my p = (0, 0, 2)) ∧
    0 < sq ((p.x - mx) * (p.x - mx) + (p.y - my) * (p.y - my)) + 1 / 10 := by
  refine ⟨?_, ?_, ?_⟩
  · intro h
    have hnot : ¬ ((p.x - mx) * (p.x - mx) + (p.y - my) * (p.y - my) <
        mouseRadiusSquared) := by
      rw [h]
      exact lt_irrefl _
    exact ⟨by simp [stepParticle, hnot], by simp [mouseRepelDelta, hnot]⟩
  · rintro ⟨hx, hy⟩
    have h0 : (p.x - mx) * (p.x - mx) + (p.y - my) * (p.y - my) = 0 := by
      rw [hx, hy]
      ring
    norm_num [mouseRepelDelta, hx, hy, h0, hz, mouseRadiusSquared,
      mouseRadius, mouseRepelForce]
  · have h1 : 0 ≤ (p.x - mx) * (p.x - mx) + (p.y - my) * (p.y - my) :=
      add_nonneg (mul_self_nonneg _) (mul_self_nonneg _)
    have h2 := hnn _ h1
    linarith

/-- Witness for C4: the repulsion increment vanishes for a concrete
particle exactly on the radius boundary. -/
theorem pointer_repulsion_boundary_witness :
    mouseRepelDelta (fun _ => 0) 0 0 boundaryParticle = (0, 0, 0) :=
  ((pointer_repulsion_boundary (fun _ => 0) (fun _ _ => le_refl 0) rfl 0 0
    boundaryParticle).1
    (by norm_num [boundaryParticle, mouseRadius])).2

theorem runFrames_staticFields (sq : ℚ → ℚ) (fs : List Frame)
    (ps : List Particle) :
    (runFrames sq fs ps).map staticFields = ps.map staticFields := by
  induction fs generalizing ps with
  | nil => rfl
  | cons f fs ih =>
    show (runFrames sq fs (stepAll sq f ps)).map staticFields = _
    rw [ih, stepAll, List.map_map]
    exact List.map_congr_left fun p _ =>
      stepParticle_staticFields sq f.isMouseOver f.mouseX f.mouseY p

theorem mem_createParticlesGrid {W H : ℕ} {data : ℕ → ℕ}
    {rz rs : ℕ → ℕ → ℚ} {ox oy : ℚ} {p : Particle}
    (hp : p ∈ createParticlesGrid W H data rz rs ox oy) :
    ∃ y x, y < H ∧ x < W ∧ pixelParticle W data rz rs ox oy y x = some p := by
  unfold createParticlesGrid at hp
  rw [List.mem_flatMap] at hp
  obtain ⟨y, hy, hp⟩ := hp
  rw [List.mem_filterMap] at hp
  obtain ⟨x, hx, hpx⟩ := hp
  exact ⟨y, x, List.mem_range.1 hy, List.mem_range.1 hx, hpx⟩

theorem pixelParticle_some_fields {W : ℕ} {data : ℕ → ℕ}
    {rz rs : ℕ → ℕ → ℚ} {ox oy : ℚ} {y x : ℕ} {p : Particle}
    (h : pixelParticle W data rz rs ox oy y x = some p) :
    p.x = p.originX ∧ p.y = p.originY ∧
    p.vx = 0 ∧ p.vy = 0 ∧ p.vz = 0 ∧ p.originZ = 0 ∧
    p.z = (rz x y * 2 - 1) * 20 := by
  simp only [pixelParticle] at h
  split at h
  · rw [Option.some.injEq] at h
    subst h
    exact ⟨rfl, rfl, rfl, rfl, rfl, rfl, rfl⟩
  · exact absurd h (by simp)

theorem create_originZ (W H : ℕ) (data : ℕ → ℕ) (rz rs : ℕ → ℕ → ℚ)
    (ox oy : ℚ) :
    ∀ p ∈ createParticlesGrid W H data rz rs ox oy, p.originZ = 0 := by
  intro p hp
  obtain ⟨y, x, _, _, hpx⟩ := mem_createParticlesGrid hp
  exact (pixelParticle_some_fields hpx).2.2.2.2.2.1

theorem runFrames_originZ (sq : ℚ → ℚ) (fs : List Frame)
    (ps : List Particle) (h : ∀ p ∈ ps, p.originZ = 0) :
    ∀ q ∈ runFrames sq fs ps, q.originZ = 0 := by
  induction fs generalizing ps with
  | nil => exact h
  | cons f fs ih =>
    intro q hq
    refine ih (stepAll sq f ps) ?_ q hq
    intro r hr
    rw [stepAll, List.mem_map] at hr
    obtain ⟨r0, hr0, rfl⟩ := hr
    exact h r0 hr0

/-- C7: over any sequence of frames, the simulation preserves the
particle count and never writes origin, color or size; and for a particle
set produced by the pixel loop, originZ = 0 at all times. -/
theorem simulation_invariants (sq : ℚ → ℚ) (fs : List Frame)
    (W H : ℕ) (data : ℕ → ℕ) (rz rs : ℕ → ℕ → ℚ) (ox oy : ℚ) :
    ((runFrames sq fs (createParticlesGrid W H data rz rs ox oy)).length =
      (createParticlesGrid W H data rz rs ox oy).length) ∧
    ((runFrames sq fs (createParticlesGrid W H data rz rs ox oy)).map
        staticFields =
      (createParticlesGrid W H data rz rs ox oy).map staticFields) ∧
    (∀ q ∈ runFrames sq fs (createParticlesGrid W H data rz rs ox oy),
      q.originZ = 0) := by
  refine ⟨?_, runFrames_staticFields sq fs _, ?_⟩
  · have h := congrArg List.length (runFrames_staticFields sq fs
      (createParticlesGrid W H data rz rs ox oy))
    rwa [List.length_map, List.length_map] at h
  · exact runFrames_originZ sq fs _ (create_originZ W H data rz rs ox oy)

/-- Witness for C7 on a concrete 1-by-1 opaque bitmap and one frame. -/
theorem simulation_invariants_witness :
    ((runFrames (fun q => q) [mouseOffFrame]
        (createParticlesGrid 1 1 opaqueData zeroDraw zeroSizeDraw 0 0)).length =
      (createParticlesGrid 1 1 opaqueData zeroDraw zeroSizeDraw 0 0).length) ∧
    ((runFrames (fun q => q) [mouseOffFrame]
        (createParticlesGrid 1 1 opaqueData zeroDraw zeroSizeDraw 0 0)).map
        staticFields =
      (createParticlesGrid 1 1 opaqueData zeroDraw zeroSizeDraw 0 0).map
        staticFields) ∧
    (∀ q ∈ runFrames (fun q => q) [mouseOffFrame]
        (createParticlesGrid 1 1 opaqueData zeroDraw zeroSizeDraw 0 0),
      q.originZ = 0) :=
  simulation_invariants (fun q => q) [mouseOffFrame] 1 1 opaqueData
    zeroDraw zeroSizeDraw 0 0

theorem length_filterMap_eq {α β : Type} (l : List α) (f : α → Option β)
    (q : α → Bool) (h : ∀ a, (f a).isSome = q a) :
    (l.filterMap f).length = (l.filter q).length := by
  induction l with
  | nil => rfl
  | cons a l ih =>
    rw [List.filterMap_cons, List.filter_cons]
    cases hfa : f a with
    | none =>
      have hq := h a
      rw [hfa] at hq
      simp [← hq, ih]
    | some b =>
      have hq := h a
      rw [hfa] at hq
      simp [← hq, ih]

theorem length_flatMap_congr {α β γ : Type} (l : List α) (g1 : α → List β)
    (g2 : α → List γ) (h : ∀ a ∈ l, (g1 a).length = (g2 a).length) :
    (l.flatMap g1).length = (l.flatMap g2).length := by
  induction l with
  | nil => rfl
  | cons a l ih =>
    rw [List.flatMap_cons, List.flatMap_cons, List.length_append,
      List.length_append, h a (List.mem_cons_self a l),
      ih fun b hb => h b (List.mem_cons_of_mem a hb)]

theorem pixelParticle_isSome (W : ℕ) (data : ℕ → ℕ) (rz rs : ℕ → ℕ → ℚ)
    (ox oy : ℚ) (y x : ℕ) :
    (pixelParticle W data rz rs ox oy y x).isSome =
      decide (128 < data ((y * W + x) * 4 + 3)) := by
  by_cases h : 128 < data ((y * W + x) * 4 + 3)
  · simp [pixelParticle, h]
  · simp [pixelParticle, h]

/-- C2 is false as stated: a pixel with alpha exactly 128 exceeds 50% of
the maximum 255 (128 > 127.5), yet the loop's strict test alpha > 128
emits no particle for it. -/
theorem alpha_exactly_128_yields_no_particle :
    createParticlesGrid 1 1 alpha128Data zeroDraw zeroSizeDraw 0 0 = [] ∧
    (255 : ℚ) / 2 < 128 := by
  constructor
  · rfl
  · norm_num

/-- C2 (amended): a pixel of the scaled bitmap yields exactly one
particle if and only if its alpha byte is strictly greater than 128 (not
127.5): the particle count equals the number of grid pixels whose alpha
byte exceeds 128. -/
theorem particle_per_pixel_count (W H : ℕ) (data : ℕ → ℕ)
    (rz rs : ℕ → ℕ → ℚ) (ox oy : ℚ) :
    (createParticlesGrid W H data rz rs ox oy).length =
      ((List.range H).flatMap fun y =>
        (List.range W).filter fun x =>
          decide (128 < data ((y * W + x) * 4 + 3))).length := by
  unfold createParticlesGrid
  refine length_flatMap_congr _ _ _ fun y _ => ?_
  exact length_filterMap_eq _ _ _ fun x =>
    pixelParticle_isSome W data rz rs ox oy y x

/-- C6 is false as stated: on an opaque 1-by-1 bitmap with the random
depth draw 0, the created particle has z = -20 while originZ = 0, so its
initial position does not equal its origin in the z component. -/
theorem initial_z_differs_from_originZ :
    (createParticlesGrid 1 1 opaqueData zeroDraw zeroSizeDraw 0 0).map
        (fun p => (p.z, p.originZ)) = [((-20 : ℚ), 0)] ∧
    ((-20 : ℚ) ≠ 0) := by
  constructor
  · simp [createParticlesGrid, pixelParticle, opaqueData, zeroDraw,
      List.range_succ, List.range_zero, List.flatMap_cons, List.flatMap_nil,
      List.filterMap_cons, List.filterMap_nil]
  · norm_num

/-- C6 (amended): every created particle starts with x = originX,
y = originY, velocity (0, 0, 0) and originZ = 0, but its z coordinate is
the random depth (draw * 2 - 1) * 20, lying in [-20, 20) when the draw
lies in [0, 1) — the initial position agrees with the origin in x and y
only. -/
theorem creation_starts_at_origin_xy (W H : ℕ) (data : ℕ → ℕ)
    (rz rs : ℕ → ℕ → ℚ) (ox oy : ℚ)
    (hdraw : ∀ a b : ℕ, 0 ≤ rz a b ∧ rz a b < 1) :
    ∀ p ∈ createParticlesGrid W H data rz rs ox oy,
      p.x = p.originX ∧ p.y = p.originY ∧
      p.vx = 0 ∧ p.vy = 0 ∧ p.vz = 0 ∧ p.originZ = 0 ∧
      -20 ≤ p.z ∧ p.z < 20 := by
  intro p hp
  obtain ⟨y, x, _, _, hpx⟩ := mem_createParticlesGrid hp
  obtain ⟨h1, h2, h3, h4, h5, h6, h7⟩ := pixelParticle_some_fields hpx
  obtain ⟨ha, hb⟩ := hdraw x y
  refine ⟨h1, h2, h3, h4, h5, h6, ?_, ?_⟩
  · rw [h7]
    linarith
  · rw [h7]
    linarith

/-- Witness for C6 (amended): the particle created from the opaque
1-by-1 bitmap with zero draws. -/
theorem creation_starts_at_origin_xy_witness :
    opaqueParticle.x = opaqueParticle.originX ∧
    opaqueParticle.y = opaqueParticle.originY ∧
    opaqueParticle.vx = 0 ∧ opaqueParticle.vy = 0 ∧
    opaqueParticle.vz = 0 ∧ opaqueParticle.originZ = 0 ∧
    -20 ≤ opaqueParticle.z ∧ opaqueParticle.z < 20 :=
  creation_starts_at_origin_xy 1 1 opaqueData zeroDraw zeroSizeDraw 0 0
    (by
      intro a b
      constructor <;> norm_num [zeroDraw])
    opaqueParticle
    (by
      norm_num [createParticlesGrid, pixelParticle, opaqueData, zeroDraw,
        zeroSizeDraw, opaqueParticle, List.range_succ, List.range_zero,
        List.flatMap_cons, List.flatMap_nil, List.filterMap_cons,
        List.filterMap_nil])

/-- C5: the bitmap is scaled by min(0.9 * canvasWidth / w,
0.9 * canvasHeight / h) — uniformly, preserving the aspect ratio — and
centered via offsetX = (canvasWidth - w * scale) / 2 and
offsetY = (canvasHeight - h * scale) / 2; the canvas is fixed at
350 by 150. -/
theorem scaling_and_centering (cw ch w h : ℚ) :
    scaleFor cw ch w h = scaleSpec cw ch w h ∧
    offsetX cw ch w h = (cw - w * scaleFor cw ch w h) / 2 ∧
    offsetY cw ch w h = (ch - h * scaleFor cw ch w h) / 2 ∧
    logoWidth cw ch w h * h = logoHeight cw ch w h * w ∧
    canvasWidth = 350 ∧ canvasHeight = 150 := by
  refine ⟨?_, rfl, rfl, ?_, rfl, rfl⟩
  · unfold scaleFor scaleSpec
    congr 1 <;> ring
  · unfold logoWidth logoHeight
    ring

/-- C9: construction succeeds iff the context is available, both shaders
compile and the program links; a compile failure surfaces the shader info
log, a link failure the program info log, and a missing context the
"WebGL2 not supported" error — and these are the only failure modes. -/
theorem construction_failure_modes (env : GLEnv) :
    ((constructParticles env = Except.ok ()) ↔
      (env.webgl2Supported = true ∧ env.vertexCompileOk = true ∧
        env.fragmentCompileOk = true ∧ env.linkOk = true)) ∧
    (∀ m l, constructParticles env =
        Except.error (InitFailure.shaderCompile m l) →
      m = shaderErrorMessage ∧
        (l = env.vertexShaderLog ∨ l = env.fragmentShaderLog)) ∧
    (∀ m l, constructParticles env =
        Except.error (InitFailure.programLink m l) →
      m = programErrorMessage ∧ l = env.programLog) ∧
    (env.webgl2Supported = false →
      constructParticles env =
        Except.error (InitFailure.contextUnavailable webgl2ErrorMessage)) := by
  obtain ⟨w, v, f, l, lv, lf, lp⟩ := env
  cases w <;> cases v <;> cases f <;> cases l <;>
    simp [constructParticles, createShader, createProgram]

/-- Witness for C9: with a healthy environment construction succeeds. -/
theorem construction_failure_modes_witness :
    constructParticles
      { webgl2Supported := true, vertexCompileOk := true,
        fragmentCompileOk := true, linkOk := true,
        vertexShaderLog := dummyLog, fragmentShaderLog := dummyLog,
        programLog := dummyLog } = Except.ok () :=
  (construction_failure_modes
    { webgl2Supported := true, vertexCompileOk := true,
      fragmentCompileOk := true, linkOk := true,
      vertexShaderLog := dummyLog, fragmentShaderLog := dummyLog,
      programLog := dummyLog }).1.2 ⟨rfl, rfl, rfl, rfl⟩

/-- C8 fails on the code: destroy cancels the pending frame, but the
image onload handler installed in initWebGL is never detached, so calling
destroy before the bitmap has loaded does not prevent the animation:
when the load event later fires, a physics/render step runs (steps goes
from 0 to 1) and keeps rescheduling itself (a further frame takes steps
to 2) even though the instance was destroyed. -/
theorem destroy_before_load_still_animates :
    (runEvents [SysEvent.destroyCall]).destroyed = true ∧
    (runEvents [SysEvent.destroyCall]).steps = 0 ∧
    (runEvents [SysEvent.destroyCall, SysEvent.imageLoad]).steps = 1 ∧
    (runEvents [SysEvent.destroyCall, SysEvent.imageLoad]).pendingFrame
      = true ∧
    (runEvents [SysEvent.destroyCall, SysEvent.imageLoad,
      SysEvent.frame]).steps = 2 := by
  decide

/-- C10: when getContext("2d") is unavailable, createParticles returns
silently with an empty particle list, particleCount stays 0 — so the
animation loop keeps running and draws zero points — and the simulation
of the empty set stays empty forever. -/
theorem missing_context_degrades_silently (rz rs : ℕ → ℕ → ℚ)
    (ox oy : ℚ) (sq : ℚ → ℚ) (fs : List Frame) :
    (createParticlesRun none rz rs ox oy initBuilderState).particles = [] ∧
    (createParticlesRun none rz rs ox oy initBuilderState).particleCount
      = 0 ∧
    runFrames sq fs
      (createParticlesRun none rz rs ox oy initBuilderState).particles
      = [] := by
  refine ⟨rfl, rfl, ?_⟩
  show runFrames sq fs [] = []
  induction fs with
  | nil => rfl
  | cons f fs ih => exact ih

end Nuxtanime
